import Mathlib

/-!
Shallow embedding of the count-reconciliation core of `inventario.py`.

Quantities are DECIMAL(10,2) in the store and Python floats in the app;
they are modelled exactly over `ℚ`.  Timestamps are abstract `Nat` ticks.
The per-row state mirrors the `items_corte` table (`DBManager._create_tables`),
including the generated column
`diferencia DECIMAL(10,2) GENERATED ALWAYS AS (conteo_fisico - stock_sistema) VIRTUAL`,
which the engine recomputes on every row write and no statement ever assigns.
-/

namespace Inventario

/-- One row of `items_corte`. -/
structure ItemRow where
  sesion_id : Nat
  codigo : String
  producto : String
  linea : String
  stock_sistema : ℚ
  conteo_fisico : ℚ
  diferencia : ℚ
  novedad : String
  fecha_conteo : Option Nat
  ultimo_equipo_id : Option Nat
deriving Repr, DecidableEq

/-- One row of `historial_movimientos` (append-only audit table). -/
structure Movimiento where
  sesion_id : Nat
  item_codigo : String
  equipo_id : Nat
  tipo_accion : String
  cantidad_anterior : ℚ
  cantidad_resultante : ℚ
  fecha_movimiento : Nat
deriving Repr, DecidableEq

abbrev DB := List ItemRow

abbrev Historial := List Movimiento

/-- The storage engine's action for the schema clause
`diferencia GENERATED ALWAYS AS (conteo_fisico - stock_sistema) VIRTUAL`:
after any insert or update of a row, `diferencia` is recomputed from the
two quantity columns.  No SQL statement in the program writes `diferencia`. -/
def applyGenerated (r : ItemRow) : ItemRow :=
  { r with diferencia := r.conteo_fisico - r.stock_sistema }

/-- `InputValidator.validate_cantidad`.  The Python code first parses the
string with `float(cantidad_str.replace(',', '.'))`; the parse result is
abstracted as `Option ℚ` (`none` = `ValueError`, i.e. unparseable).  Then:
negative rejected, greater than 999999 rejected, otherwise accepted. -/
def validate_cantidad (parsed : Option ℚ) : Except String ℚ :=
  match parsed with
  | none => .error "Cantidad inválida"
  | some cantidad =>
    if cantidad < 0 then .error "Cantidad negativa"
    else if cantidad > 999999 then .error "Cantidad muy grande"
    else .ok cantidad

/-- `InputValidator.validate_codigo`: trim + uppercase, reject empty or
longer than 50 characters. -/
def validate_codigo (codigo : String) : Except String String :=
  let c := codigo.trim.toUpper
  if c = "" then .error "Código vacío"
  else if c.length > 50 then .error "Código muy largo"
  else .ok c

/-- The row-selection predicate `WHERE sesion_id=%s AND codigo=%s`. -/
def matchesKey (s : Nat) (cod : String) (r : ItemRow) : Bool :=
  decide (r.sesion_id = s ∧ r.codigo = cod)

/-- The lookup used by `_buscar_producto` and `_pre_save`:
`SELECT ... WHERE sesion_id=%s AND codigo=%s`, taking the first row. -/
def buscarItem (db : DB) (s : Nat) (cod : String) : Option ItemRow :=
  (db.filter (matchesKey s cod)).head?

/-- The INSERT used both at session creation (bulk) and for extra items:
`INSERT INTO items_corte (sesion_id, codigo, producto, linea, stock_sistema)`.
`conteo_fisico` takes its column default 0, `novedad`/`fecha_conteo`/
`ultimo_equipo_id` are NULL-ish defaults, and the engine fills the
generated `diferencia` column.  The table has only a non-unique
`INDEX idx_sesion_codigo (sesion_id, codigo)`, so the insert never fails
on an existing code. -/
def insertItem (db : DB) (s : Nat) (cod prod lin : String) (stock : ℚ) : DB :=
  db ++ [applyGenerated
    { sesion_id := s, codigo := cod, producto := prod, linea := lin,
      stock_sistema := stock, conteo_fisico := 0, diferencia := 0,
      novedad := "", fecha_conteo := none, ultimo_equipo_id := none }]

/-- `_abrir_alta`'s `confirmar`: insert the extra product with
`stock_sistema = 0` and line defaulted to `"SIN LINEA"` when blank. -/
def altaExtra (db : DB) (s : Nat) (cod nom lin : String) : DB :=
  insertItem db s cod nom (if lin = "" then "SIN LINEA" else lin) 0

/-- The UPDATE inside `_guardar_conteo`:
`UPDATE items_corte SET conteo_fisico=%s, novedad=%s, fecha_conteo=NOW(),
ultimo_equipo_id=%s WHERE sesion_id=%s AND codigo=%s`.
Every matching row is rewritten; the engine recomputes `diferencia`. -/
def updateConteo (db : DB) (s : Nat) (cod : String) (cant : ℚ) (nov : String)
    (equipo : Nat) (now : Nat) : DB :=
  db.map (fun r =>
    if r.sesion_id = s ∧ r.codigo = cod then
      applyGenerated { r with conteo_fisico := cant, novedad := nov,
                              fecha_conteo := some now,
                              ultimo_equipo_id := some equipo }
    else r)

/-- The stock-refresh UPDATE (`UPDATE items_corte SET stock_sistema=%s
WHERE id=%s`), addressing one row by position; `counted` is untouched and
the engine recomputes `diferencia`. -/
def updateStock (db : DB) (i : Nat) (stock : ℚ) : DB :=
  db.mapIdx (fun j r =>
    if j = i then applyGenerated { r with stock_sistema := stock } else r)

/-- `_guardar_conteo`: update the item row, then append one
`historial_movimientos` row carrying the action kind, the
quantity-before (`cant_ant`) and the resulting quantity. -/
def guardarConteo (db : DB) (hist : Historial) (s : Nat) (cod : String)
    (cant : ℚ) (tipo : String) (cant_ant : ℚ) (nov : String) (equipo : Nat)
    (now : Nat) : DB × Historial :=
  (updateConteo db s cod cant nov equipo now,
   hist ++ [{ sesion_id := s, item_codigo := cod, equipo_id := equipo,
              tipo_accion := tipo, cantidad_anterior := cant_ant,
              cantidad_resultante := cant, fecha_movimiento := now }])

/-- Outcome of `_pre_save`: either the count was written at once (first
count, action `"NUEVO"`), or the item already has a positive count and the
duplicate dialog is opened, exposing the previous quantity, team and
timestamp for the human to resolve. -/
inductive PreSaveOutcome where
  | guardado (db : DB) (hist : Historial)
  | duplicado (conteo_previo : ℚ) (equipo_previo : Option Nat)
      (fecha_previa : Option Nat)
deriving Repr, DecidableEq

/-- `_pre_save`: look the item up; if a row exists with
`conteo_fisico > 0` open the duplicate dialog, otherwise save immediately
with action `"NUEVO"` and quantity-before 0. -/
def preSave (db : DB) (hist : Historial) (s : Nat) (cod : String) (cant : ℚ)
    (nov : String) (equipo : Nat) (now : Nat) : PreSaveOutcome :=
  match buscarItem db s cod with
  | some r =>
    if 0 < r.conteo_fisico then
      .duplicado r.conteo_fisico r.ultimo_equipo_id r.fecha_conteo
    else
      let p := guardarConteo db hist s cod cant "NUEVO" 0 nov equipo now
      .guardado p.1 p.2
  | none =>
    let p := guardarConteo db hist s cod cant "NUEVO" 0 nov equipo now
    .guardado p.1 p.2

/-- The `sumar` button of `_mostrar_dialogo_duplicado`:
`_guardar_conteo(cod, cant_actual + cant_nueva, "SUMA", cant_actual)`. -/
def sumar (db : DB) (hist : Historial) (s : Nat) (cod : String)
    (cant_actual cant_nueva : ℚ) (nov : String) (equipo : Nat) (now : Nat) :
    DB × Historial :=
  guardarConteo db hist s cod (cant_actual + cant_nueva) "SUMA" cant_actual
    nov equipo now

/-- The `reemplazar` button of `_mostrar_dialogo_duplicado`:
`_guardar_conteo(cod, cant_nueva, "REEMPLAZO", cant_actual)`. -/
def reemplazar (db : DB) (hist : Historial) (s : Nat) (cod : String)
    (cant_actual cant_nueva : ℚ) (nov : String) (equipo : Nat) (now : Nat) :
    DB × Historial :=
  guardarConteo db hist s cod cant_nueva "REEMPLAZO" cant_actual nov equipo
    now

/-- The payload shown by `_mostrar_conflicto_equipo`: the previous team,
previous quantity and previous timestamp of the conflicting count. -/
structure ConflictoEquipo where
  equipo_previo : Option Nat
  cantidad_previa : ℚ
  fecha_previa : Option Nat
deriving Repr, DecidableEq

/-- The conflict-detection rule of `_buscar_producto` (DETECTAR CONFLICTO
DE EQUIPO): if the found row has `conteo_fisico > 0` and its
`ultimo_equipo_id` differs from the active team, the conflict alert is
raised with the previous data; otherwise nothing is flagged. -/
def detectarConflicto (p : ItemRow) (equipo : Nat) : Option ConflictoEquipo :=
  if 0 < p.conteo_fisico ∧ p.ultimo_equipo_id ≠ some equipo then
    some ⟨p.ultimo_equipo_id, p.conteo_fisico, p.fecha_conteo⟩
  else none

/-- The `WHERE sesion_id=%s [AND linea IN (...)] AND stock_sistema > 0`
qualifier of the KPI query in `_sync_update_background`: an empty
`filtro` list means no line filter is active. -/
def qualifies (s : Nat) (filtro : List String) (r : ItemRow) : Bool :=
  decide (r.sesion_id = s) &&
  (if filtro = [] then true else decide (r.linea ∈ filtro)) &&
  decide (0 < r.stock_sistema)

/-- `COUNT(CASE WHEN conteo_fisico>0 THEN 1 END)`. -/
def contadoPred (r : ItemRow) : Bool :=
  decide (0 < r.conteo_fisico)

/-- `COUNT(CASE WHEN (conteo_fisico-stock_sistema)<0 AND conteo_fisico>0
THEN 1 END)`. -/
def faltantePred (r : ItemRow) : Bool :=
  decide (r.conteo_fisico - r.stock_sistema < 0 ∧ 0 < r.conteo_fisico)

/-- `COUNT(CASE WHEN (conteo_fisico-stock_sistema)>0 THEN 1 END)`. -/
def sobrantePred (r : ItemRow) : Bool :=
  decide (0 < r.conteo_fisico - r.stock_sistema)

/-- `COUNT(CASE WHEN (conteo_fisico-stock_sistema)=0 AND conteo_fisico>0
THEN 1 END)`. -/
def exactoPred (r : ItemRow) : Bool :=
  decide (r.conteo_fisico - r.stock_sistema = 0 ∧ 0 < r.conteo_fisico)

/-- The aggregate row returned by the KPI query `q_kpis`. -/
structure KPIs where
  total : Nat
  contados : Nat
  faltantes : Nat
  sobrantes : Nat
  exactos : Nat
deriving Repr, DecidableEq

/-- The KPI query of `_sync_update_background` (`q_kpis`): all five
aggregates range only over rows passing the session/line filter and
`stock_sistema > 0`. -/
def computeKPIs (db : DB) (s : Nat) (filtro : List String) : KPIs :=
  let rows := db.filter (qualifies s filtro)
  { total := rows.length
  , contados := (rows.filter contadoPred).length
  , faltantes := (rows.filter faltantePred).length
  , sobrantes := (rows.filter sobrantePred).length
  , exactos := (rows.filter exactoPred).length }

/-- The row predicate of the pending-items query `q_pend`:
`sesion_id=%s AND conteo_fisico=0 AND stock_sistema > 0` plus the optional
line filter. -/
def pendientePred (s : Nat) (filtro : List String) (r : ItemRow) : Bool :=
  decide (r.sesion_id = s) && decide (r.conteo_fisico = 0) &&
  decide (0 < r.stock_sistema) &&
  (if filtro = [] then true else decide (r.linea ∈ filtro))

/-- The pending-items query `q_pend`, `LIMIT 100`. -/
def queryPendientes (db : DB) (s : Nat) (filtro : List String) : DB :=
  (db.filter (pendientePred s filtro)).take 100

/-- The discrepancy query `q_dif`: `diferencia!=0 AND conteo_fisico>0`
within the session/line filter, `LIMIT 100`. -/
def queryDiferencias (db : DB) (s : Nat) (filtro : List String) : DB :=
  (db.filter (fun r =>
    decide (r.sesion_id = s) && decide (r.diferencia ≠ 0) &&
    decide (0 < r.conteo_fisico) &&
    (if filtro = [] then true else decide (r.linea ∈ filtro)))).take 100

/-- The displayed KPI labels; both percentage labels start at `"0%"` when
the widgets are built (`_mk_kpi(kpi, "% AVANCE", "0%", ...)` and
`_mk_kpi(kpi, "EXACTITUD", "0%", ...)`), modelled as the rational 0. -/
structure Labels where
  avance : ℚ
  exactitud : ℚ
deriving Repr, DecidableEq

/-- The label-update step of `_sync_update_background`: the progress label
is rewritten only under `kpis['total'] > 0`, and the accuracy label only
under `kpis['contados'] > 0`; otherwise each keeps its previous value. -/
def updateLabels (k : KPIs) (l : Labels) : Labels :=
  let l1 := if 0 < k.total then
    { l with avance := (k.contados : ℚ) / (k.total : ℚ) * 100 } else l
  if 0 < k.contados then
    { l1 with exactitud := (k.exactos : ℚ) / (k.contados : ℚ) * 100 } else l1

/-- The scheduler state of `InventarioApp`: the `sync_in_progress` flag,
the `sync_counter` used to throttle heavy widget rebuilds, and a ghost
count of how many aggregation passes (`_sync_update_background` bodies)
were started. -/
structure SyncState where
  sync_in_progress : Bool
  sync_counter : Nat
  executed : Nat
deriving Repr, DecidableEq

/-- `_sync_update`: if `sync_in_progress` is set the call returns at once
(the tick is dropped); otherwise the flag is set and one background
aggregation pass is started. -/
def syncUpdate (st : SyncState) : SyncState :=
  if st.sync_in_progress then st
  else { st with sync_in_progress := true, executed := st.executed + 1 }

/-- The tail of `_sync_update_background`: the pass increments
`sync_counter` and its `finally` block clears `sync_in_progress`. -/
def syncFinish (st : SyncState) : SyncState :=
  { st with sync_in_progress := false, sync_counter := st.sync_counter + 1 }

/-- `_refresh_all`: set `sync_counter = 2` (to force the heavy update on
the next completed pass) and call `_sync_update` — the same entry point
the timer tick uses, with the same early return. -/
def refreshAll (st : SyncState) : SyncState :=
  syncUpdate { st with sync_counter := 2 }

/-- The item-store states reachable through the operations of the program
that write `items_corte`: session-creation bulk insert, extra-item
creation, the count UPDATE of `_guardar_conteo`, and the stock-refresh
UPDATE.  No operation writes the `diferencia` column; the engine derives
it. -/
inductive Reachable : DB → Prop where
  | empty : Reachable []
  | bulk (db : DB) (s : Nat) (cod prod lin : String) (stock : ℚ) :
      Reachable db → Reachable (insertItem db s cod prod lin stock)
  | extra (db : DB) (s : Nat) (cod nom lin : String) :
      Reachable db → Reachable (altaExtra db s cod nom lin)
  | conteo (db : DB) (s : Nat) (cod : String) (cant : ℚ) (nov : String)
      (equipo now : Nat) :
      Reachable db → Reachable (updateConteo db s cod cant nov equipo now)
  | stock (db : DB) (i : Nat) (q : ℚ) :
      Reachable db → Reachable (updateStock db i q)

/-! ### Helper lemmas -/

/-- `applyGenerated` establishes the generated-column equation on the row
it produces. -/
lemma applyGenerated_diferencia (r : ItemRow) :
    (applyGenerated r).diferencia
      = (applyGenerated r).conteo_fisico - (applyGenerated r).stock_sistema :=
  rfl

/-- The count UPDATE rewrites every row matching the key and leaves the
key columns themselves unchanged, so the first-match lookup after the
UPDATE is the lookup before it, with the SET clause (and the generated
column) applied. -/
lemma buscarItem_updateConteo (db : DB) (s : Nat) (cod : String) (cant : ℚ)
    (nov : String) (equipo now : Nat) :
    buscarItem (updateConteo db s cod cant nov equipo now) s cod
      = (buscarItem db s cod).map (fun r =>
          applyGenerated { r with conteo_fisico := cant, novedad := nov,
                                  fecha_conteo := some now,
                                  ultimo_equipo_id := some equipo }) := by
  induction db with
  | nil => rfl
  | cons a l ih =>
    by_cases h : a.sesion_id = s ∧ a.codigo = cod
    · simp [updateConteo, buscarItem, matchesKey, List.filter_cons,
        applyGenerated, h, h.1, h.2]
    · simpa [updateConteo, buscarItem, matchesKey, List.filter_cons, h]
        using ih

/-- Membership in the result of the stock-refresh UPDATE: each result row
is either an untouched original row or an original row with its
`stock_sistema` rewritten and `diferencia` regenerated. -/
lemma mem_updateStock (db : DB) (i : Nat) (q : ℚ) (r : ItemRow)
    (hr : r ∈ updateStock db i q) :
    r ∈ db ∨ ∃ a ∈ db, r = applyGenerated { a with stock_sistema := q } := by
  unfold updateStock at hr
  rcases List.mem_mapIdx.mp hr with ⟨j, hj, hval⟩
  by_cases h : j = i
  · exact Or.inr ⟨db.get ⟨j, hj⟩, List.get_mem db j hj,
      by simpa [h] using hval.symm⟩
  · left
    have hget : r = db.get ⟨j, hj⟩ := by simp [h] at hval; exact hval.symm
    rw [hget]
    exact List.get_mem db j hj

/-! ### Claims about the Sync Scheduler and KPI labels -/

/-- Claim C7: no two aggregation passes overlap — a `_sync_update` tick
arriving while `sync_in_progress` is set is dropped (the state is left
unchanged), so starting a pass and then receiving two further ticks while
it is in flight executes exactly one pass in total. -/
theorem c7_no_overlap (st t : SyncState) (h : st.sync_in_progress = false)
    (ht : t.sync_in_progress = true) :
    (syncUpdate st).executed = st.executed + 1 ∧
    (syncUpdate st).sync_in_progress = true ∧
    syncUpdate (syncUpdate st) = syncUpdate st ∧
    (syncUpdate (syncUpdate (syncUpdate st))).executed = st.executed + 1 ∧
    syncUpdate t = t := by
  refine ⟨by simp [syncUpdate, h], by simp [syncUpdate, h], ?_, ?_, ?_⟩
  · simp [syncUpdate, h]
  · simp [syncUpdate, h]
  · simp [syncUpdate, ht]

/-- Witness for C7 at the idle initial state and a busy state. -/
theorem c7_no_overlap_witness :
    (syncUpdate ⟨false, 0, 0⟩).executed = 0 + 1 ∧
    (syncUpdate ⟨false, 0, 0⟩).sync_in_progress = true ∧
    syncUpdate (syncUpdate ⟨false, 0, 0⟩) = syncUpdate ⟨false, 0, 0⟩ ∧
    (syncUpdate (syncUpdate (syncUpdate ⟨false, 0, 0⟩))).executed = 0 + 1 ∧
    syncUpdate ⟨true, 1, 4⟩ = ⟨true, 1, 4⟩ :=
  c7_no_overlap ⟨false, 0, 0⟩ ⟨true, 1, 4⟩ rfl rfl

/-- Counterexample to C8: a manual refresh (`_refresh_all`) issued while a
pass is in flight starts no recompute — the scheduler state is unchanged
except for presetting `sync_counter` to 2, a state also reachable with no
request at all; nothing records the request for later execution, so it is
dropped. -/
theorem c8_counterexample :
    refreshAll ⟨true, 0, 5⟩ = ⟨true, 2, 5⟩ ∧
    (refreshAll ⟨true, 0, 5⟩).executed = 5 := by
  decide

/-- Claim C8 (amended): a manual refresh performs the recompute when no
pass is in flight, but when one is in flight it is dropped exactly like a
timer tick — only `sync_counter` is preset to 2; it neither blocks nor is
queued. -/
theorem c8_amended (st : SyncState) :
    (st.sync_in_progress = false →
      (refreshAll st).executed = st.executed + 1) ∧
    (st.sync_in_progress = true →
      (refreshAll st).executed = st.executed ∧
      refreshAll st = { st with sync_counter := 2 }) := by
  constructor
  · intro h
    simp [refreshAll, syncUpdate, h]
  · intro h
    simp [refreshAll, syncUpdate, h]

/-- Witness for the amended C8 at an idle and at a busy state. -/
theorem c8_amended_witness :
    (refreshAll ⟨false, 0, 0⟩).executed = 0 + 1 ∧
    (refreshAll ⟨true, 1, 7⟩).executed = 7 :=
  ⟨(c8_amended ⟨false, 0, 0⟩).1 rfl, ((c8_amended ⟨true, 1, 7⟩).2 rfl).1⟩

/-- Counterexample to C6: with one qualifying item still uncounted
(`contados = 0`), the pass leaves the previously displayed accuracy label
(here 50) unchanged instead of writing a fresh 0. -/
theorem c6_counterexample :
    (computeKPIs [⟨1, "A1", "P", "L", 5, 0, -5, "", none, none⟩] 1
        []).contados = 0 ∧
    (updateLabels
        (computeKPIs [⟨1, "A1", "P", "L", 5, 0, -5, "", none, none⟩] 1 [])
        ⟨0, 50⟩).exactitud ≠ 0 := by
  decide

/-- Claim C6 (amended): when `countedItems = 0` the pass skips the
accuracy update entirely — no error and no NaN arise because the division
is never evaluated, but the displayed value is the unchanged previous one
(initially 0%), not a freshly written 0. -/
theorem c6_amended (k : KPIs) (l : Labels) (h : k.contados = 0) :
    (updateLabels k l).exactitud = l.exactitud := by
  by_cases ht : 0 < k.total <;> simp [updateLabels, h, ht]

/-- Witness for the amended C6: a pass over one uncounted item leaves a
previously displayed accuracy of 50 in place. -/
theorem c6_amended_witness :
    (updateLabels ⟨5, 0, 0, 0, 0⟩ ⟨0, 50⟩).exactitud
      = (⟨0, 50⟩ : Labels).exactitud :=
  c6_amended ⟨5, 0, 0, 0, 0⟩ ⟨0, 50⟩ rfl

/-- Counterexample to C9: creating an extra item with a code that already
exists in the session does not fail — it silently creates a second row
with the same session+code (the schema's `idx_sesion_codigo` is a plain,
non-unique index and the INSERT performs no existence check). -/
theorem c9_counterexample :
    ((altaExtra (altaExtra [] 1 "A1" "PROD" "L1") 1 "A1" "OTRO" "L1").filter
        (matchesKey 1 "A1")).length = 2 := by
  decide

/-- Claim C9 (amended): `createExtraItem` inserts the new item with
`stock = 0` (and `counted = 0`), but duplicate codes are not rejected:
the insert always appends one more row with the given code, even when a
row with the same session+code already exists. -/
theorem c9_amended (db : DB) (s : Nat) (cod nom lin : String) :
    ∃ r, altaExtra db s cod nom lin = db ++ [r] ∧ r.stock_sistema = 0 ∧
      r.conteo_fisico = 0 ∧ r.codigo = cod ∧ r.sesion_id = s ∧
      ((altaExtra db s cod nom lin).filter (matchesKey s cod)).length
        = (db.filter (matchesKey s cod)).length + 1 := by
  refine ⟨_, rfl, rfl, rfl, rfl, rfl, ?_⟩
  simp [altaExtra, insertItem, List.filter_append, matchesKey,
    applyGenerated]

/-! ### Claims about discrepancy and the Aggregator -/

/-- In every reachable item-store state, every row satisfies the
generated-column equation. -/
lemma reachable_diferencia (db : DB) (h : Reachable db) :
    ∀ r ∈ db, r.diferencia = r.conteo_fisico - r.stock_sistema := by
  induction h with
  | empty =>
    intro r hr
    simp at hr
  | bulk db s cod prod lin stock hdb ih =>
    intro r hr
    rcases List.mem_append.mp hr with h1 | h2
    · exact ih r h1
    · rw [List.mem_singleton] at h2
      rw [h2]
      exact applyGenerated_diferencia _
  | extra db s cod nom lin hdb ih =>
    intro r hr
    rcases List.mem_append.mp hr with h1 | h2
    · exact ih r h1
    · rw [List.mem_singleton] at h2
      rw [h2]
      exact applyGenerated_diferencia _
  | conteo db s cod cant nov equipo now hdb ih =>
    intro r hr
    rcases List.mem_map.mp hr with ⟨a, ha, hval⟩
    by_cases hc : a.sesion_id = s ∧ a.codigo = cod
    · rw [← hval]
      simp only [hc, if_true]
      exact applyGenerated_diferencia _
    · rw [← hval]
      simp only [hc, if_false]
      exact ih a ha
  | stock db i q hdb ih =>
    intro r hr
    rcases mem_updateStock db i q r hr with h1 | ⟨a, ha, hval⟩
    · exact ih r h1
    · rw [hval]
      exact applyGenerated_diferencia _

/-- Claim C4: in every reachable item-store state, every row satisfies
`diferencia = conteo_fisico - stock_sistema`.  No operation assigns the
column; each write lists only the quantity/annotation columns and the
engine regenerates `diferencia` from the two quantities. -/
theorem c4_diferencia_invariante (db : DB) (r : ItemRow) (h : Reachable db)
    (hr : r ∈ db) :
    r.diferencia = r.conteo_fisico - r.stock_sistema :=
  reachable_diferencia db h r hr

/-- Witness for C4: a concrete state reached by creating an extra item and
then counting it. -/
theorem c4_diferencia_invariante_witness :
    (⟨1, "A1", "P", "L", 0, 5, 5, "", some 100, some 2⟩ : ItemRow).diferencia
      = (⟨1, "A1", "P", "L", 0, 5, 5, "", some 100, some 2⟩ :
          ItemRow).conteo_fisico
        - (⟨1, "A1", "P", "L", 0, 5, 5, "", some 100, some 2⟩ :
            ItemRow).stock_sistema :=
  c4_diferencia_invariante
    (updateConteo (altaExtra [] 1 "A1" "P" "L") 1 "A1" 5 "" 2 100)
    ⟨1, "A1", "P", "L", 0, 5, 5, "", some 100, some 2⟩
    (Reachable.conteo _ 1 "A1" 5 "" 2 100
      (Reachable.extra _ 1 "A1" "P" "L" Reachable.empty))
    (by
      norm_num [updateConteo, altaExtra, insertItem, applyGenerated,
        List.mem_singleton]
      decide)

/-- A zero-stock row fails the `stock_sistema > 0` qualifier of the KPI
query. -/
lemma qualifies_eq_false_of_stock_zero (s : Nat) (filtro : List String)
    (r : ItemRow) (hzero : r.stock_sistema = 0) :
    qualifies s filtro r = false := by
  simp [qualifies, hzero]

/-- Claim C5: zero-stock "extra" items contribute to neither the
numerator nor the denominator of any KPI aggregate — adding such a row
leaves all five aggregates unchanged — and whenever the denominator is
positive the progress label is `contados / total * 100` over the
qualifying rows. -/
theorem c5_denominador (db : DB) (s : Nat) (filtro : List String)
    (r : ItemRow) (l : Labels) (hzero : r.stock_sistema = 0)
    (ht : 0 < (computeKPIs db s filtro).total) :
    computeKPIs (db ++ [r]) s filtro = computeKPIs db s filtro ∧
    (updateLabels (computeKPIs db s filtro) l).avance
      = ((computeKPIs db s filtro).contados : ℚ)
          / ((computeKPIs db s filtro).total : ℚ) * 100 := by
  constructor
  · have hq := qualifies_eq_false_of_stock_zero s filtro r hzero
    simp [computeKPIs, List.filter_append, hq]
  · by_cases hc : 0 < (computeKPIs db s filtro).contados <;>
      simp [updateLabels, ht, hc]

/-- Witness for C5: one qualifying counted row plus one zero-stock extra
row. -/
theorem c5_denominador_witness :
    computeKPIs
        ([⟨1, "A1", "P", "L", 5, 5, 0, "", none, none⟩] ++
          [⟨1, "EX", "Q", "L", 0, 4, 4, "", none, none⟩]) 1 []
      = computeKPIs [⟨1, "A1", "P", "L", 5, 5, 0, "", none, none⟩] 1 [] ∧
    (updateLabels
        (computeKPIs [⟨1, "A1", "P", "L", 5, 5, 0, "", none, none⟩] 1 [])
        ⟨0, 0⟩).avance
      = ((computeKPIs [⟨1, "A1", "P", "L", 5, 5, 0, "", none, none⟩] 1
            []).contados : ℚ)
          / ((computeKPIs [⟨1, "A1", "P", "L", 5, 5, 0, "", none, none⟩]
                1 []).total : ℚ) * 100 :=
  c5_denominador [⟨1, "A1", "P", "L", 5, 5, 0, "", none, none⟩] 1 []
    ⟨1, "EX", "Q", "L", 0, 4, 4, "", none, none⟩ ⟨0, 0⟩ rfl (by decide)

/-! ### Claims about the Count Resolver -/

/-- Looking an item up after `_guardar_conteo`'s UPDATE yields the row
found before it with the SET clause applied. -/
lemma buscarItem_guardarConteo (db : DB) (hist : Historial) (s : Nat)
    (cod : String) (cant : ℚ) (tipo : String) (cant_ant : ℚ) (nov : String)
    (equipo now : Nat) (r : ItemRow) (hfind : buscarItem db s cod = some r) :
    buscarItem (guardarConteo db hist s cod cant tipo cant_ant nov equipo
        now).1 s cod
      = some (applyGenerated
          { r with conteo_fisico := cant, novedad := nov,
                   fecha_conteo := some now,
                   ultimo_equipo_id := some equipo }) := by
  show buscarItem (updateConteo db s cod cant nov equipo now) s cod = _
  rw [buscarItem_updateConteo, hfind, Option.map_some']

/-- A successful first-match lookup returns a row carrying the looked-up
session and code (it passed the `WHERE` clause). -/
lemma buscarItem_key (db : DB) (s : Nat) (cod : String) (r : ItemRow)
    (h : buscarItem db s cod = some r) :
    r.sesion_id = s ∧ r.codigo = cod := by
  unfold buscarItem at h
  rcases hfl : db.filter (matchesKey s cod) with _ | ⟨a, l⟩
  · rw [hfl] at h
    cases h
  · rw [hfl] at h
    have ha : a ∈ db.filter (matchesKey s cod) := by
      rw [hfl]
      exact List.mem_cons_self a l
    have hpred := List.of_mem_filter ha
    have har : a = r := by
      injection h
    subst har
    simpa [matchesKey] using hpred

/-- Claim C1: on an already-counted item, SUM stores
`counted_old + quantity_in` and REPLACE stores `quantity_in`; both append
a movement carrying the chosen action kind and
`quantityBefore = counted_old`. -/
theorem c1_suma_reemplazo (db : DB) (hist : Historial) (s : Nat)
    (cod : String) (r : ItemRow) (q : ℚ) (nov : String) (equipo now : Nat)
    (hfind : buscarItem db s cod = some r) (_hdup : 0 < r.conteo_fisico) :
    (∃ r', buscarItem (sumar db hist s cod r.conteo_fisico q nov equipo
          now).1 s cod = some r'
        ∧ r'.conteo_fisico = r.conteo_fisico + q) ∧
    (sumar db hist s cod r.conteo_fisico q nov equipo now).2
      = hist ++ [⟨s, cod, equipo, "SUMA", r.conteo_fisico,
          r.conteo_fisico + q, now⟩] ∧
    (∃ r', buscarItem (reemplazar db hist s cod r.conteo_fisico q nov
          equipo now).1 s cod = some r'
        ∧ r'.conteo_fisico = q) ∧
    (reemplazar db hist s cod r.conteo_fisico q nov equipo now).2
      = hist ++ [⟨s, cod, equipo, "REEMPLAZO", r.conteo_fisico, q, now⟩] := by
  exact ⟨⟨_, buscarItem_guardarConteo db hist s cod (r.conteo_fisico + q)
      "SUMA" r.conteo_fisico nov equipo now r hfind, rfl⟩, rfl,
    ⟨_, buscarItem_guardarConteo db hist s cod q "REEMPLAZO"
      r.conteo_fisico nov equipo now r hfind, rfl⟩, rfl⟩

/-- Sample already-counted row (stock 10, counted 10 by team 1). -/
def rowB1 : ItemRow := ⟨1, "B1", "PB", "L", 10, 10, 0, "", some 50, some 1⟩

/-- Sample never-counted row (stock 8, counted at the 0 sentinel). -/
def rowC1 : ItemRow := ⟨1, "C1", "PC", "L", 8, 0, -8, "", none, none⟩

/-- Witness for C1 on a concrete already-counted item. -/
theorem c1_suma_reemplazo_witness :
    (∃ r', buscarItem (sumar [rowB1] [] 1 "B1" rowB1.conteo_fisico 3 "" 2
          60).1 1 "B1" = some r'
        ∧ r'.conteo_fisico = rowB1.conteo_fisico + 3) ∧
    (sumar [rowB1] [] 1 "B1" rowB1.conteo_fisico 3 "" 2 60).2
      = [] ++ [⟨1, "B1", 2, "SUMA", rowB1.conteo_fisico,
          rowB1.conteo_fisico + 3, 60⟩] ∧
    (∃ r', buscarItem (reemplazar [rowB1] [] 1 "B1" rowB1.conteo_fisico 3
          "" 2 60).1 1 "B1" = some r'
        ∧ r'.conteo_fisico = 3) ∧
    (reemplazar [rowB1] [] 1 "B1" rowB1.conteo_fisico 3 "" 2 60).2
      = [] ++ [⟨1, "B1", 2, "REEMPLAZO", rowB1.conteo_fisico, 3, 60⟩] :=
  c1_suma_reemplazo [rowB1] [] 1 "B1" rowB1 3 "" 2 60 rfl
    (by norm_num [rowB1])

/-- Claim C2: on an item whose `counted` is still the 0 sentinel, the
submission is classified `"NUEVO"` with quantity-before 0, and the write
stores the submitted quantity, the submitting team and the timestamp. -/
theorem c2_primer_conteo (db : DB) (hist : Historial) (s : Nat)
    (cod : String) (r : ItemRow) (cant : ℚ) (nov : String) (equipo now : Nat)
    (hfind : buscarItem db s cod = some r) (hzero : r.conteo_fisico = 0) :
    preSave db hist s cod cant nov equipo now
      = .guardado (updateConteo db s cod cant nov equipo now)
          (hist ++ [⟨s, cod, equipo, "NUEVO", 0, cant, now⟩]) ∧
    ∃ r', buscarItem (updateConteo db s cod cant nov equipo now) s cod
        = some r' ∧
      r'.conteo_fisico = cant ∧ r'.ultimo_equipo_id = some equipo ∧
      r'.fecha_conteo = some now := by
  constructor
  · simp [preSave, hfind, hzero, guardarConteo]
  · exact ⟨applyGenerated
      { r with conteo_fisico := cant, novedad := nov,
               fecha_conteo := some now, ultimo_equipo_id := some equipo },
      by rw [buscarItem_updateConteo, hfind, Option.map_some'],
      rfl, rfl, rfl⟩

/-- Witness for C2 on a concrete never-counted item. -/
theorem c2_primer_conteo_witness :
    preSave [rowC1] [] 1 "C1" 4 "" 2 70
      = .guardado (updateConteo [rowC1] 1 "C1" 4 "" 2 70)
          ([] ++ [⟨1, "C1", 2, "NUEVO", 0, 4, 70⟩]) ∧
    ∃ r', buscarItem (updateConteo [rowC1] 1 "C1" 4 "" 2 70) 1 "C1"
        = some r' ∧
      r'.conteo_fisico = 4 ∧ r'.ultimo_equipo_id = some 2 ∧
      r'.fecha_conteo = some 70 :=
  c2_primer_conteo [rowC1] [] 1 "C1" rowC1 4 "" 2 70 rfl rfl

/-- Claim C3: on a duplicate submission the cross-team conflict is raised
if and only if the item's last-counting team differs from the submitting
team; when raised it carries the previous team, previous quantity and
previous timestamp; and it is advisory only — the resolution write
appends its movement (the submission proceeds) with no dependence on the
flag. -/
theorem c3_conflicto (p : ItemRow) (equipo : Nat) (db : DB)
    (hist : Historial) (s : Nat) (cod : String) (q : ℚ) (nov : String)
    (now : Nat) (hdup : 0 < p.conteo_fisico) :
    ((detectarConflicto p equipo).isSome
        ↔ p.ultimo_equipo_id ≠ some equipo) ∧
    (p.ultimo_equipo_id ≠ some equipo →
      detectarConflicto p equipo
        = some ⟨p.ultimo_equipo_id, p.conteo_fisico, p.fecha_conteo⟩) ∧
    (sumar db hist s cod p.conteo_fisico q nov equipo now).2.length
        = hist.length + 1 ∧
    (reemplazar db hist s cod p.conteo_fisico q nov equipo now).2.length
        = hist.length + 1 := by
  refine ⟨?_, ?_, by simp [sumar, guardarConteo],
    by simp [reemplazar, guardarConteo]⟩
  · by_cases h : p.ultimo_equipo_id = some equipo <;>
      simp [detectarConflicto, hdup, h]
  · intro h
    simp [detectarConflicto, hdup, h]

/-- Witness for C3: the sample already-counted row (last counted by team
1) duplicate-submitted by team 2. -/
theorem c3_conflicto_witness :
    ((detectarConflicto rowB1 2).isSome
        ↔ rowB1.ultimo_equipo_id ≠ some 2) ∧
    (rowB1.ultimo_equipo_id ≠ some 2 →
      detectarConflicto rowB1 2
        = some ⟨rowB1.ultimo_equipo_id, rowB1.conteo_fisico,
            rowB1.fecha_conteo⟩) ∧
    (sumar [rowB1] [] 1 "B1" rowB1.conteo_fisico 3 "" 2 60).2.length
        = ([] : Historial).length + 1 ∧
    (reemplazar [rowB1] [] 1 "B1" rowB1.conteo_fisico 3 "" 2
        60).2.length = ([] : Historial).length + 1 :=
  c3_conflicto rowB1 2 [rowB1] [] 1 "B1" 3 "" 60 (by norm_num [rowB1])

/-- Claim C10: a quantity of exactly 0 passes validation (only negative,
unparseable or over-999999 inputs are rejected) and is stored as
`counted = 0`; the stored row is then indistinguishable from a
never-counted one — not counted, not exact, pending whenever its stock is
positive — and the next submission on it is classified `"NUEVO"` with
quantity-before 0 rather than as a duplicate. -/
theorem c10_cantidad_cero (db : DB) (hist2 : Historial) (s : Nat)
    (cod : String) (r : ItemRow) (c q : ℚ) (nov nov2 : String)
    (equipo equipo2 now now2 : Nat)
    (hfind : buscarItem db s cod = some r) :
    validate_cantidad (some 0) = .ok 0 ∧
    (validate_cantidad (some c) = .ok c ↔ ¬c < 0 ∧ ¬c > 999999) ∧
    validate_cantidad none = .error "Cantidad inválida" ∧
    (∃ r', buscarItem (updateConteo db s cod 0 nov equipo now) s cod
        = some r' ∧
      r'.conteo_fisico = 0 ∧ contadoPred r' = false ∧
      exactoPred r' = false ∧
      pendientePred s [] r' = decide (0 < r'.stock_sistema)) ∧
    preSave (updateConteo db s cod 0 nov equipo now) hist2 s cod q nov2
        equipo2 now2
      = .guardado
          (updateConteo (updateConteo db s cod 0 nov equipo now) s cod q
            nov2 equipo2 now2)
          (hist2 ++ [⟨s, cod, equipo2, "NUEVO", 0, q, now2⟩]) := by
  have hkey := buscarItem_key db s cod r hfind
  have hb : buscarItem (updateConteo db s cod 0 nov equipo now) s cod
      = some (applyGenerated
          { r with conteo_fisico := (0 : ℚ), novedad := nov,
                   fecha_conteo := some now,
                   ultimo_equipo_id := some equipo }) := by
    rw [buscarItem_updateConteo, hfind, Option.map_some']
  refine ⟨?_, ?_, rfl, ⟨_, hb, rfl, ?_, ?_, ?_⟩, ?_⟩
  · norm_num [validate_cantidad]
  · simp only [validate_cantidad]
    split_ifs with h1 h2
    · simp [h1]
    · simp [h1, h2]
    · simp [h1, h2]
  · simp [contadoPred, applyGenerated]
  · simp [exactoPred, applyGenerated]
  · simp [pendientePred, applyGenerated, hkey.1]
  · simp [preSave, hb, guardarConteo, applyGenerated]

/-- Witness for C10 on a concrete never-counted item submitted with
quantity 0 and then re-submitted with quantity 7. -/
theorem c10_cantidad_cero_witness :
    validate_cantidad (some 0) = .ok 0 ∧
    (validate_cantidad (some 7) = .ok 7 ↔ ¬(7 : ℚ) < 0 ∧ ¬(7 : ℚ) > 999999) ∧
    validate_cantidad none = .error "Cantidad inválida" ∧
    (∃ r', buscarItem (updateConteo [rowC1] 1 "C1" 0 "" 2 70) 1 "C1"
        = some r' ∧
      r'.conteo_fisico = 0 ∧ contadoPred r' = false ∧
      exactoPred r' = false ∧
      pendientePred 1 [] r' = decide (0 < r'.stock_sistema)) ∧
    preSave (updateConteo [rowC1] 1 "C1" 0 "" 2 70) [] 1 "C1" 7 "" 3 80
      = .guardado
          (updateConteo (updateConteo [rowC1] 1 "C1" 0 "" 2 70) 1 "C1" 7
            "" 3 80)
          ([] ++ [⟨1, "C1", 3, "NUEVO", 0, 7, 80⟩]) :=
  c10_cantidad_cero [rowC1] [] 1 "C1" rowC1 7 7 "" "" 2 3 70 80 rfl

end Inventario
